import Mathlib

/-!
Shallow embedding of the servicetitan-syncer repository
(src/stsync.py, src/stsync_http.py, src/stsync_db.py, src/stsync_models.py).

The embedding models JSON documents as `JVal`, Python truthiness as
`JVal.truthy`, HTTP responses as `HResp`, and the tenacity retry decorator
`@retry(stop=stop_after_attempt(4), retry=retry_if_exception_type((httpx.HTTPStatusError, httpx.ConnectError)))`
as a fuel-bounded loop over per-attempt outcomes.  Network and database
effects are made explicit: servers are response oracles, the SQLite
crosswalk table is an association list keyed by (kind, prod_id), and each
resolver returns its result together with the new crosswalk state and the
list of create payloads it POSTed.
-/

namespace StSync

/-- JSON-like values, the shape of every payload and response in the code.
Numbers are modelled as integers; no claim depends on float arithmetic. -/
inductive JVal where
  | null
  | bool (b : Bool)
  | num (n : Int)
  | str (s : String)
  | arr (xs : List JVal)
  | obj (fields : List (String × JVal))

/-- Python truthiness (`bool(v)`): None, False, 0, "", [], {} are falsy. -/
def JVal.truthy : JVal → Bool
  | .null => false
  | .bool b => b
  | .num n => n != 0
  | .str s => s ≠ ""
  | .arr xs => !xs.isEmpty
  | .obj fs => !fs.isEmpty

/-- Python `d.get(k)` on a dict: the value under the first matching key,
None (`JVal.null`) when the key is absent or the value is not a dict. -/
def JVal.get : JVal → String → JVal
  | .obj fs, k => ((fs.find? (fun p => p.1 = k)).map Prod.snd).getD .null
  | _, _ => .null

/-- Python `k in d` membership test on a dict. -/
def JVal.hasKey : JVal → String → Bool
  | .obj fs, k => (fs.find? (fun p => p.1 = k)).isSome
  | _, _ => false

/-- Python `d.get(k, default)`. -/
def JVal.getD (v : JVal) (k : String) (d : JVal) : JVal :=
  if v.hasKey k then v.get k else d

/-- Python `a or b`: `a` when truthy, else `b`. -/
def pyOr (a b : JVal) : JVal := if a.truthy then a else b

/-- Python `str(v)` for the scalar values the code passes to str().
Composite values never reach a str() call on the paths under study. -/
def pyStr : JVal → String
  | .null => "None"
  | .bool true => "True"
  | .bool false => "False"
  | .num n => toString n
  | .str s => s
  | .arr _ => "<list>"
  | .obj _ => "<dict>"

/-- Python `int(v)` for scalars: ints pass through, numeric strings parse,
booleans become 0/1, anything else raises (modelled as `.error`). -/
def jint : JVal → Except String Int
  | .num n => .ok n
  | .str s =>
    match s.toInt? with
    | some n => .ok n
    | none => .error ("invalid literal for int(): " ++ s)
  | .bool b => .ok (if b then 1 else 0)
  | _ => .error "int() argument must be a number or string"

/-- Python `{**payload, k: v}`: replace key `k` in place (append when absent),
mirroring Python dict-merge update order. -/
def objSet (v : JVal) (k : String) (x : JVal) : JVal :=
  match v with
  | .obj fs =>
    if (fs.find? (fun p => p.1 = k)).isSome then
      .obj (fs.map (fun p => if p.1 = k then (k, x) else p))
    else
      .obj (fs ++ [(k, x)])
  | other => other

/-- ASCII lowercasing of one character, as Python str.lower() acts on the
ASCII strings the claims exercise. -/
def lowerChar (c : Char) : Char :=
  if 65 ≤ c.toNat ∧ c.toNat ≤ 90 then Char.ofNat (c.toNat + 32) else c

/-- Python `s.lower()`. -/
def strToLower (s : String) : String := ⟨s.data.map lowerChar⟩

def isSpaceChar (c : Char) : Bool :=
  c = ' ' || c = '\t' || c = '\n' || c = '\r' || c = '\x0b' || c = '\x0c'

/-- Python `s.strip()`: drop whitespace from both ends. -/
def strStrip (s : String) : String :=
  ⟨(((s.data.dropWhile isSpaceChar).reverse.dropWhile isSpaceChar).reverse)⟩

/-- Substring test on character lists, used for Python `pat in s`. -/
def containsSub (pat : List Char) : List Char → Bool
  | [] => pat.isEmpty
  | c :: t => pat.isPrefixOf (c :: t) || containsSub pat t

/-- Python `"pat" in s.lower()` for an ASCII lowercase literal `pat`. -/
def strContainsCI (s pat : String) : Bool :=
  containsSub pat.data (strToLower s).data

/-! ## HTTP transport (src/stsync_http.py, src/stsync.py)

An HTTP response is a status code, a body text, and the parsed JSON body.
A call site under tenacity is modelled as: the outcome of each attempt is
computed from the response to that attempt; tenacity retries outcomes raising
`httpx.HTTPStatusError` or `httpx.ConnectError` and stops after 4 attempts,
raising out of the loop (RetryError) when the budget is exhausted. -/

structure HResp where
  status : Nat
  body : String
  json : JVal

/-- The outcome of one physical attempt, classified by what the attempt
raises: `retryableError` for exceptions in the tenacity retry set
(httpx.HTTPStatusError, httpx.ConnectError), `fatalError` for everything
else (RuntimeError, ValueError, ...). -/
inductive AttemptStep where
  | success (v : JVal)
  | retryableError
  | fatalError

/-- Result of a whole transport call: parsed JSON or a raised exception. -/
inductive CallResult where
  | ok (v : JVal)
  | error

/-- One attempt of `http_get` (stsync_http.py lines 57-98; the stsync.py
copy at lines 241-296 is behaviourally identical here):
429 raises httpx.HTTPStatusError ("Rate limited") to trigger the tenacity
retry; a 5xx raises RuntimeError (not in the retry set); any other
non-success status reaches `r.raise_for_status()`, whose
httpx.HTTPStatusError is logged and re-raised — and that exception type IS
in the tenacity retry set. -/
def getAttempt (r : HResp) : AttemptStep :=
  if r.status = 429 then .retryableError
  else if r.status ≥ 500 then .fatalError
  else if r.status ≥ 400 then .retryableError
  else .success r.json

/-- The tenacity driver `stop_after_attempt(budget)`: run attempts until
success, a non-retryable exception, or the attempt budget is spent.
Returns the call result and the number of attempts performed. -/
def retryLoop (step : Nat → AttemptStep) : Nat → Nat → CallResult × Nat
  | 0, made => (.error, made)
  | fuel + 1, made =>
    match step made with
    | .success v => (.ok v, made + 1)
    | .fatalError => (.error, made + 1)
    | .retryableError =>
      if fuel = 0 then (.error, made + 1)
      else retryLoop step fuel (made + 1)

/-- The function `http_get` under its tenacity decorator: 4 attempts total, the i-th
attempt seeing response `resp i`. -/
def http_get (resp : Nat → HResp) : CallResult × Nat :=
  retryLoop (fun i => getAttempt (resp i)) 4 0

/-- One attempt of `http_post_json` in src/stsync_http.py (lines 106-179),
together with the payloads it physically POSTs.  The server oracle maps the
index of each physical POST to its response; `k` is the number of POSTs
already issued.  429 raises into the tenacity retry set; a 5xx whose body
contains "request" (case-insensitive) and `allow_wrapper_retry` triggers one
inner POST of `{"request": payload}` whose failure falls through to the
RuntimeError raise (not retryable); a 5xx otherwise raises RuntimeError;
any other non-success status reaches `r.raise_for_status()`, whose
httpx.HTTPStatusError is re-raised into the tenacity retry set. -/
def postAttemptHttpMod (payload : JVal) (allowWrap : Bool) (server : Nat → HResp)
    (k : Nat) : AttemptStep × List JVal :=
  let r := server k
  if r.status = 429 then (.retryableError, [payload])
  else if 500 ≤ r.status then
    if allowWrap && strContainsCI r.body "request" then
      let wrapped : JVal := .obj [("request", payload)]
      let r2 := server (k + 1)
      if r2.status < 400 then (.success r2.json, [payload, wrapped])
      else (.fatalError, [payload, wrapped])
    else (.fatalError, [payload])
  else if 400 ≤ r.status then (.retryableError, [payload])
  else (.success r.json, [payload])

/-- One attempt of `http_post_json` in src/stsync.py (lines 304-387): here
the wrapper retry sits in the non-429 4xx branch which otherwise raises
RuntimeError, while a 5xx reaches `r.raise_for_status()` and its
httpx.HTTPStatusError is re-raised into the tenacity retry set. -/
def postAttemptLegacy (payload : JVal) (allowWrap : Bool) (server : Nat → HResp)
    (k : Nat) : AttemptStep × List JVal :=
  let r := server k
  if r.status = 429 then (.retryableError, [payload])
  else if 400 ≤ r.status ∧ r.status < 500 then
    if allowWrap && strContainsCI r.body "request" then
      let wrapped : JVal := .obj [("request", payload)]
      let r2 := server (k + 1)
      if r2.status < 400 then (.success r2.json, [payload, wrapped])
      else (.fatalError, [payload, wrapped])
    else (.fatalError, [payload])
  else if 500 ≤ r.status then (.retryableError, [payload])
  else (.success r.json, [payload])

/-- Tenacity driver for the POST call sites, threading the count of
physical POSTs already issued and accumulating the trace of payloads. -/
def postRetryLoop (attempt : Nat → AttemptStep × List JVal) :
    Nat → Nat → List JVal → CallResult × List JVal
  | 0, _, acc => (.error, acc)
  | fuel + 1, k, acc =>
    let (st, sent) := attempt k
    match st with
    | .success v => (.ok v, acc ++ sent)
    | .fatalError => (.error, acc ++ sent)
    | .retryableError =>
      if fuel = 0 then (.error, acc ++ sent)
      else postRetryLoop attempt fuel (k + sent.length) (acc ++ sent)

/-- The function `http_post_json` of src/stsync_http.py under its tenacity decorator.
Returns the call result and the ordered list of payloads POSTed. -/
def http_post_json (payload : JVal) (allowWrap : Bool) (server : Nat → HResp) :
    CallResult × List JVal :=
  postRetryLoop (postAttemptHttpMod payload allowWrap server) 4 0 []

/-- The function `http_post_json` of src/stsync.py under its tenacity decorator. -/
def http_post_json_legacy (payload : JVal) (allowWrap : Bool) (server : Nat → HResp) :
    CallResult × List JVal :=
  postRetryLoop (postAttemptLegacy payload allowWrap server) 4 0 []

/-! ## ID crosswalk store (src/stsync_db.py, class IDMapper)

The SQLite table `id_map(kind, prod_id, int_id, created_at)` with primary
key (kind, prod_id) is modelled as an association list from (kind, prod_id)
to int_id in which the most recent write shadows earlier entries —
`INSERT OR REPLACE` is upsert-by-primary-key, so lookups see the last
write.  The created_at timestamp column is never read by the program and is
not modelled. -/

abbrev Crosswalk : Type := List ((String × String) × String)

def cwEmpty : Crosswalk := []

/-- Method `IDMapper.get`: `SELECT int_id FROM id_map WHERE kind=? AND prod_id=?`. -/
def cwGet (db : Crosswalk) (kind pid : String) : Option String :=
  (db.find? (fun e => e.1 = (kind, pid))).map Prod.snd

/-- Method `IDMapper.put`: `INSERT OR REPLACE INTO id_map(...)`. -/
def cwPut (db : Crosswalk) (kind pid intId : String) : Crosswalk :=
  ((kind, pid), intId) :: db

/-- Method `IDMapper.exists`: `self.get(kind, prod_id) is not None`. -/
def cwExists (db : Crosswalk) (kind pid : String) : Bool :=
  (cwGet db kind pid).isSome

/-- A sequence of `put` calls (kind, prod_id, int_id), applied in order. -/
def cwRun (ops : List (String × String × String)) (db : Crosswalk) : Crosswalk :=
  ops.foldl (fun d op => cwPut d op.1 op.2.1 op.2.2) db

/-- The value of the last `put` for a given (kind, prod_id) in a sequence of
put calls, written from the wording of the spec sentence being checked:
later puts take precedence over earlier ones. -/
def lastWriteSpec (ops : List (String × String × String)) (kind pid : String) :
    Option String :=
  match ops with
  | [] => none
  | op :: rest =>
    match lastWriteSpec rest kind pid with
    | some v => some v
    | none => if op.1 = kind ∧ op.2.1 = pid then some op.2.2 else none

/-! ## Pagination (src/stsync_http.py `fetch_all`, lines 182-240; the
src/stsync.py copy at lines 390-448 is identical)

Query parameters form a small string-keyed dictionary.  The server is an
oracle from the query parameters of a page request to its JSON response;
`fetch_all` returns the items yielded, in order, together with the trace of
page requests issued (the parameter dictionaries, in order).  The
`while True` loop is bounded by explicit fuel; fuel only cuts off runs the
real generator would extend further, it never adds behaviour. -/

abbrev Params : Type := List (String × JVal)

def pGet (ps : Params) (k : String) : Option JVal :=
  (ps.find? (fun p => p.1 = k)).map Prod.snd

/-- Python `params[k] = v`: replace in place, append when absent (dict update). -/
def pSet (ps : Params) (k : String) (v : JVal) : Params :=
  if (ps.find? (fun p => p.1 = k)).isSome then
    ps.map (fun p => if p.1 = k then (k, v) else p)
  else
    ps ++ [(k, v)]

def pHas (ps : Params) (k : String) : Bool :=
  (ps.find? (fun p => p.1 = k)).isSome

/-- Python `int(v)` where the code has already ensured a usable value; the raising
cases of Python int() are not reached on the inputs any claim exercises. -/
def jintD (v : JVal) : Int := (jint v).toOption.getD 0

/-- Python `data.get(list_key) or []` followed by `for it in items`: the pages any
claim exercises carry JSON arrays under the list key. -/
def jItems : JVal → List JVal
  | .arr xs => xs
  | _ => []

/-- Entity list configuration, the fields of `cfg` that `fetch_all` reads. -/
structure FetchCfg where
  listParams : Params
  sinceParam : Option String
  listDataKey : JVal
  nextPageKey : JVal

/-- The `while True` page loop of `fetch_all`, returning (yielded items,
trace of page-request parameter dictionaries). -/
def fetchLoop (server : Params → JVal) (listKey nextKey : String) :
    Nat → Params → List JVal × List Params
  | 0, _ => ([], [])
  | fuel + 1, params =>
    let data := server params
    let items := jItems (pyOr (data.get listKey) (.arr []))
    if data.hasKey "hasMore" then
      if (data.get "hasMore").truthy then
        let params2 := pSet params "page"
          (.num (jintD ((pGet params "page").getD (.num 1)) + 1))
        let rest := fetchLoop server listKey nextKey fuel params2
        (items ++ rest.1, params :: rest.2)
      else (items, [params])
    else
      let nextPage := data.get nextKey
      match nextPage with
      | .num n =>
        let rest := fetchLoop server listKey nextKey fuel (pSet params "page" (.num n))
        (items ++ rest.1, params :: rest.2)
      | .bool b =>
        -- Python: isinstance(True, int) holds, so a boolean next-page value
        -- is stored into params["page"] as-is by the int branch.
        let rest := fetchLoop server listKey nextKey fuel (pSet params "page" (.bool b))
        (items ++ rest.1, params :: rest.2)
      | .str s =>
        if s ≠ "" then
          let rest := fetchLoop server listKey nextKey fuel
            (pSet params "continuationToken" (.str s))
          (items ++ rest.1, params :: rest.2)
        else
          if pHas params "page" ∧ pHas params "pageSize" ∧
              items.length ≥ (jintD ((pGet params "pageSize").getD .null)).toNat then
            let rest := fetchLoop server listKey nextKey fuel
              (pSet params "page" (.num (jintD ((pGet params "page").getD .null) + 1)))
            (items ++ rest.1, params :: rest.2)
          else (items, [params])
      | _ =>
        if pHas params "page" ∧ pHas params "pageSize" ∧
            items.length ≥ (jintD ((pGet params "pageSize").getD .null)).toNat then
          let rest := fetchLoop server listKey nextKey fuel
            (pSet params "page" (.num (jintD ((pGet params "page").getD .null) + 1)))
          (items ++ rest.1, params :: rest.2)
        else (items, [params])

/-- Initial query parameters of `fetch_all`: copy `cfg["list_params"]`,
replace a present-but-falsy pageSize with the settings default, install the
since filter. -/
def fetchInitParams (cfg : FetchCfg) (since : Option String)
    (pageSizeDefault : Int) : Params :=
  let params0 := cfg.listParams
  let params1 :=
    if pHas params0 "pageSize" ∧ ¬ ((pGet params0 "pageSize").getD .null).truthy then
      pSet params0 "pageSize" (.num pageSizeDefault)
    else params0
  match since, cfg.sinceParam with
  | some sv, some sp => pSet params1 sp (.str sv)
  | _, _ => params1

/-- Assignment `list_key = cfg.get("list_data_key") or "items"`. -/
def fetchListKey (cfg : FetchCfg) : String :=
  match pyOr cfg.listDataKey (.str "items") with
  | .str s => s
  | _ => "items"

/-- Assignment `next_key = cfg.get("next_page_key") or "hasMore"`. -/
def fetchNextKey (cfg : FetchCfg) : String :=
  match pyOr cfg.nextPageKey (.str "hasMore") with
  | .str s => s
  | _ => "hasMore"

/-- The generator `fetch_all(cfg, base, bearer, since)`: build the initial parameters,
then run the page loop.  `pageSizeDefault` stands for the settings value
`PAGE_SIZE_DEFAULT`; `fuel` bounds the unbounded generator. -/
def fetch_all (cfg : FetchCfg) (server : Params → JVal) (since : Option String)
    (pageSizeDefault : Int) (fuel : Nat) : List JVal × List Params :=
  fetchLoop server (fetchListKey cfg) (fetchNextKey cfg) fuel
    (fetchInitParams cfg since pageSizeDefault)

/-! ## Pydantic models and mappers (src/stsync_models.py, src/stsync.py)

`ItemCreate(code: str, name: str, description: str | None = None,
active: bool = True)` under pydantic v2 validation: a `str` field accepts
exactly strings (v2 performs no int-to-str coercion), `str | None` accepts
strings and None.  A failed validation raises ValidationError, modelled as
`Except.error`. -/

def pyStrField : JVal → Except String String
  | .str s => .ok s
  | _ => .error "Input should be a valid string"

def pyOptStrField : JVal → Except String (Option String)
  | .null => .ok none
  | .str s => .ok (some s)
  | _ => .error "Input should be a valid string"

structure ItemCreate where
  code : String
  name : String
  description : Option String
  active : Bool

/-- Validated construction `ItemCreate(code=..., name=..., description=...,
active=...)`; the `active` argument is always passed through Python
`bool(...)` at every call site, hence a `Bool` here. -/
def mkItemCreate (code name description : JVal) (active : Bool) :
    Except String ItemCreate := do
  let c ← pyStrField code
  let n ← pyStrField name
  let d ← pyOptStrField description
  pure ⟨c, n, d, active⟩

/-- Python `item.model_dump()`. -/
def ItemCreate.dump (it : ItemCreate) : JVal :=
  .obj [("code", .str it.code), ("name", .str it.name),
    ("description", match it.description with | some s => .str s | none => .null),
    ("active", .bool it.active)]

/-- The mapper `map_item_for_create` (src/stsync.py lines 452-464): field-alias
fallback chains into a validated ItemCreate; a ValidationError is logged
and re-raised. -/
def map_item_for_create (src : JVal) : Except String JVal :=
  match mkItemCreate
      (pyOr (src.get "code")
        (pyOr (src.get "itemCode") (.str ("PROD-" ++ pyStr (src.get "id")))))
      (pyOr (src.get "name") (pyOr (src.get "description") (.str "Unknown Item")))
      (pyOr (src.get "description") (pyOr (src.get "name") (.str "Unknown Item")))
      ((src.getD "active" (.bool true)).truthy) with
  | .ok it => .ok it.dump
  | .error e => .error e

/-! ## Natural-key scans of the Integration environment (src/stsync.py)

Each scan walks the destination list and compares a stripped, lowercased
candidate field chain against the stripped, lowercased probe.  A non-string
truthy field value would raise inside the scan and is caught by every
caller as no-match; records any claim exercises carry string fields. -/

/-- Candidate name of a destination vendor record:
`(ven.get("name") or ven.get("displayName") or ven.get("legalName") or "").strip().lower()`. -/
def vendorCand (ven : JVal) : String :=
  match pyOr (ven.get "name")
      (pyOr (ven.get "displayName") (pyOr (ven.get "legalName") (.str ""))) with
  | .str s => strToLower (strStrip s)
  | _ => ""

/-- The scan `_find_integration_vendor_by_name` (lines 791-811): first
case-insensitive exact name match, returning the id of that record (None when
nothing matches or the probe is blank). -/
def find_integration_vendor_by_name (dest : List JVal) (name : String) : JVal :=
  let nameL := strToLower (strStrip name)
  if nameL = "" then .null
  else
    match dest.find? (fun ven => vendorCand ven = nameL) with
    | some ven => ven.get "id"
    | none => .null

/-- Candidate code of a destination material record:
`(m.get("code") or m.get("itemCode") or "").strip().lower()`. -/
def materialCand (m : JVal) : String :=
  match pyOr (m.get "code") (pyOr (m.get "itemCode") (.str "")) with
  | .str s => strToLower (strStrip s)
  | _ => ""

/-- The scan `_find_integration_material_by_code` (lines 814-829). -/
def find_integration_material_by_code (dest : List JVal) (code : String) : JVal :=
  let codeL := strToLower (strStrip code)
  if codeL = "" then .null
  else
    match dest.find? (fun m => materialCand m = codeL) with
    | some m => m.get "id"
    | none => .null

/-- Candidate name of a destination warehouse record:
`(wh.get("name") or wh.get("displayName") or "").strip().lower()`. -/
def warehouseCand (wh : JVal) : String :=
  match pyOr (wh.get "name") (pyOr (wh.get "displayName") (.str "")) with
  | .str s => strToLower (strStrip s)
  | _ => ""

/-- The scan `_find_integration_warehouse_by_name` (lines 870-885). -/
def find_integration_warehouse_by_name (dest : List JVal) (name : String) : JVal :=
  let nameL := strToLower (strStrip name)
  if nameL = "" then .null
  else
    match dest.find? (fun wh => warehouseCand wh = nameL) with
    | some wh => wh.get "id"
    | none => .null

/-! ## Dependency resolvers (src/stsync.py)

Each resolver is given the crosswalk state and oracles for its network
effects: the fetched Production record, the full Integration list the
natural-key scan walks, and the outcome of each possible create POST
(`Except.error` standing for a raised exception carrying `str(e)`).  It
returns the resolved id (or a raised exception), the new crosswalk state,
and the trace of create payloads POSTed, each with its
`allow_wrapper_retry` flag. -/

structure EnsureOut where
  result : Except String (Option Int)
  db : Crosswalk
  creates : List (JVal × Bool)

/-- Python `if existing:` — a crosswalk hit must also be a truthy (non-empty)
string to take the fast path. -/
def optTruthy (o : Option String) : Bool := o.getD "" ≠ ""

/-- Chain `v.get("name") or v.get("displayName") or f"Vendor {vendor_id}"`. -/
def vendorNameOf (v : JVal) (vendorId : Int) : JVal :=
  pyOr (v.get "name") (pyOr (v.get "displayName")
    (.str ("Vendor " ++ toString vendorId)))

/-- The vendor create payload built at lines 663-684. -/
def vendorPayload (v : JVal) (vendorId : Int) : JVal :=
  let addr := pyOr (v.get "address") (.obj [])
  .obj [
    ("name", vendorNameOf v vendorId),
    ("externalNumber", pyOr (v.get "externalNumber")
      (.str ("PROD-" ++ toString vendorId))),
    ("active", .bool (v.getD "active" (.bool true)).truthy),
    ("taxRate", v.getD "taxRate" (.num 0)),
    ("isTruckReplenishment", .bool (v.getD "isTruckReplenishment" (.bool false)).truthy),
    ("restrictedMobileCreation", .bool (v.getD "restrictedMobileCreation" (.bool false)).truthy),
    ("address", if addr.truthy then addr else
      .obj [("addressLine1", .str ""), ("addressLine2", .str ""),
        ("city", .str ""), ("state", .str ""), ("postalCode", .str ""),
        ("country", .str "US")])]

/-- The resolver `_ensure_vendor_integration` (lines 643-695). -/
def ensure_vendor_integration (vendorId : Int) (db : Crosswalk) (dryRun : Bool)
    (prodVendor : JVal) (destVendors : List JVal)
    (createResp : Except String JVal) : EnsureOut :=
  let vid := toString vendorId
  let existing := cwGet db "vendors" vid
  if optTruthy existing then
    -- try: return int(existing); except: return None
    ⟨.ok ((existing.getD "").toInt?), db, []⟩
  else
    let vName := vendorNameOf prodVendor vendorId
    -- try: find by name; except Exception: None
    let found := match vName with
      | .str s => find_integration_vendor_by_name destVendors s
      | _ => .null
    if found.truthy then
      let db2 := cwPut db "vendors" vid (pyStr found)
      match jint found with
      | .ok n => ⟨.ok (some n), db2, []⟩
      | .error e => ⟨.error e, db2, []⟩
    else
      let payload := vendorPayload prodVendor vendorId
      if dryRun then ⟨.ok none, db, []⟩
      else
        match createResp with
        | .error e => ⟨.error e, db, [(payload, true)]⟩
        | .ok created =>
          match pyOr (created.get "id") (created.get "vendorId") with
          | .null => ⟨.ok none, db, [(payload, true)]⟩
          | newId =>
            let db2 := cwPut db "vendors" vid (pyStr newId)
            match jint newId with
            | .ok n => ⟨.ok (some n), db2, [(payload, true)]⟩
            | .error e => ⟨.error e, db2, [(payload, true)]⟩

/-- Chain `w.get("name") or w.get("displayName") or f"Warehouse {warehouse_id}"`. -/
def warehouseNameOf (w : JVal) (warehouseId : Int) : JVal :=
  pyOr (w.get "name") (pyOr (w.get "displayName")
    (.str ("Warehouse " ++ toString warehouseId)))

/-- The warehouse create payload built at lines 967-975. -/
def warehousePayload (w : JVal) (warehouseId : Int) : JVal :=
  let base := [
    ("name", warehouseNameOf w warehouseId),
    ("active", .bool (w.getD "active" (.bool true)).truthy),
    ("externalNumber", pyOr (w.get "externalNumber")
      (.str ("PROD-" ++ toString warehouseId)))]
  let addr := pyOr (w.get "address") (.obj [])
  .obj (if addr.truthy then base ++ [("address", addr)] else base)

/-- The resolver `_ensure_warehouse_integration` (lines 940-988). -/
def ensure_warehouse_integration (warehouseId : Int) (db : Crosswalk)
    (dryRun : Bool) (prodWarehouse : JVal) (destWarehouses : List JVal)
    (createResp : Except String JVal) : EnsureOut :=
  let wid := toString warehouseId
  let existing := cwGet db "warehouses" wid
  if optTruthy existing then
    ⟨.ok ((existing.getD "").toInt?), db, []⟩
  else
    let wName := warehouseNameOf prodWarehouse warehouseId
    let found := match wName with
      | .str s => find_integration_warehouse_by_name destWarehouses s
      | _ => .null
    if found.truthy then
      let db2 := cwPut db "warehouses" wid (pyStr found)
      match jint found with
      | .ok n => ⟨.ok (some n), db2, []⟩
      | .error e => ⟨.error e, db2, []⟩
    else
      let payload := warehousePayload prodWarehouse warehouseId
      if dryRun then ⟨.ok none, db, []⟩
      else
        match createResp with
        | .error e => ⟨.error e, db, [(payload, true)]⟩
        | .ok created =>
          match pyOr (created.get "id") (created.get "warehouseId") with
          | .null => ⟨.ok none, db, [(payload, true)]⟩
          | newId =>
            let db2 := cwPut db "warehouses" wid (pyStr newId)
            match jint newId with
            | .ok n => ⟨.ok (some n), db2, [(payload, true)]⟩
            | .error e => ⟨.error e, db2, [(payload, true)]⟩

/-- ItemCreate construction inside `_ensure_material_integration` from a
fetched Production record; `noun` is "Material" or "Equipment" depending on
which fetch path produced the record. -/
def materialItemFrom (m : JVal) (itemId : Int) (noun : String) :
    Except String ItemCreate :=
  mkItemCreate
    (pyOr (m.get "code") (pyOr (m.get "itemCode")
      (.str ("PROD-" ++ toString itemId))))
    (pyOr (m.get "name") (pyOr (m.get "description")
      (.str (noun ++ " " ++ toString itemId))))
    (pyOr (m.get "description") (pyOr (m.get "name")
      (.str (noun ++ " " ++ toString itemId))))
    ((m.getD "active" (.bool true)).truthy)

/-- The resolver `_ensure_material_integration` (lines 698-788).  `prodMaterial` and
`prodEquipment` are the outcomes of the two alternate Production fetches;
`createResp` answers the plain create POST and `altCreateResp` the
code-disambiguated retry POST. -/
def ensure_material_integration (itemId : Int) (db : Crosswalk) (dryRun : Bool)
    (fallbackCode fallbackName : JVal)
    (prodMaterial prodEquipment : Except String JVal)
    (destMaterials : List JVal)
    (createResp altCreateResp : Except String JVal) : EnsureOut :=
  let iid := toString itemId
  let existing := cwGet db "items" iid
  if optTruthy existing then
    ⟨.ok ((existing.getD "").toInt?), db, []⟩
  else
    -- try material fetch, then equipment fetch, then PO-line fallback;
    -- a ValidationError inside a try block also falls to the next path
    let itemE : Except String ItemCreate :=
      match (match prodMaterial with
             | .ok m => materialItemFrom m itemId "Material"
             | .error e => .error e) with
      | .ok it => .ok it
      | .error _ =>
        match (match prodEquipment with
               | .ok m => materialItemFrom m itemId "Equipment"
               | .error e => .error e) with
        | .ok it => .ok it
        | .error e2 =>
          if !(fallbackCode.truthy || fallbackName.truthy) then .error e2
          else
            mkItemCreate
              (pyOr fallbackCode (.str ("PROD-" ++ toString itemId)))
              (pyOr fallbackName (.str ("Material " ++ toString itemId)))
              (pyOr fallbackName (pyOr fallbackCode
                (.str ("Material " ++ toString itemId))))
              true
    match itemE with
    | .error e => ⟨.error e, db, []⟩
    | .ok item =>
      let payload := item.dump
      -- the reuse-by-code scan (its try guards only a NameError)
      let foundCode := find_integration_material_by_code destMaterials
        (pyStr (pyOr (payload.get "code") (.str "")))
      if foundCode.truthy then
        let db2 := cwPut db "items" iid (pyStr foundCode)
        match jint foundCode with
        | .ok n => ⟨.ok (some n), db2, []⟩
        | .error e => ⟨.error e, db2, []⟩
      else if dryRun then ⟨.ok none, db, []⟩
      else
        -- the except handler around the create POST: on an error whose text
        -- contains "unique", retry once with a disambiguated code and the
        -- wrapper shim disabled, else re-raise
        let handler : String → Crosswalk → List (JVal × Bool) → EnsureOut :=
          fun e db1 creates1 =>
            let code := pyOr (payload.get "code") (.str ("PROD-" ++ toString itemId))
            -- payload["code"] is always a string, so isinstance(code, str) holds
            if strContainsCI e "unique" then
              let altPayload := objSet payload "code"
                (.str (pyStr code ++ " - PROD-" ++ toString itemId))
              match altCreateResp with
              | .error e3 => ⟨.error e3, db1, creates1 ++ [(altPayload, false)]⟩
              | .ok created2 =>
                match created2.get "id" with
                | .null => ⟨.error e, db1, creates1 ++ [(altPayload, false)]⟩
                | newId2 =>
                  let db2 := cwPut db1 "items" iid (pyStr newId2)
                  match jint newId2 with
                  | .ok n => ⟨.ok (some n), db2, creates1 ++ [(altPayload, false)]⟩
                  | .error e4 => ⟨.error e4, db2, creates1 ++ [(altPayload, false)]⟩
            else ⟨.error e, db1, creates1⟩
        match createResp with
        | .error e => handler e db [(payload, true)]
        | .ok created =>
          match created.get "id" with
          | .null => ⟨.ok none, db, [(payload, true)]⟩
          | newId =>
            let db2 := cwPut db "items" iid (pyStr newId)
            match jint newId with
            | .ok n => ⟨.ok (some n), db2, [(payload, true)]⟩
            | .error e => handler e db2 [(payload, true)]

/-! ## Sync orchestrator loop (src/stsync.py `sync`, lines 1285-1492)

A source record is modelled by the outcome of the per-record id-alias chain
`str(src.get("id") or src.get("guid") or src.get("externalId") or "")` and
by what its try block does when it is reached (the network and mapper
behaviour for that record, which the loop only observes through these
outcomes). -/

inductive RecOutcome where
  /-- the create POST returned a usable id: `db.put`, created += 1 -/
  | createdOk (intId : String)
  /-- the create POST succeeded but returned no id: errors += 1, after
  which control still falls through to `processed += 1` -/
  | createdNoId
  /-- dry-run: the payload is printed, nothing is POSTed -/
  | dryRunPrinted
  /-- the try body raised: errors += 1, continue -/
  | raised
  /-- PO flow: no resolvable line items: skipped += 1, continue -/
  | poNoItems
  /-- PO flow: no PO type id or no warehouse id: errors += 1, continue -/
  | poMissingPrereq

structure SrcRecord where
  prodId : String
  outcome : RecOutcome

structure Tally where
  processed : Nat
  skipped : Nat
  created : Nat
  errors : Nat

/-- The per-record loop of the `sync` command: skip-if-mapped, per-record
error containment, `processed` bookkeeping and the `limit` early stop
(`if limit and processed >= limit: break`). -/
def syncLoop (kind : String) (limit : Nat) :
    List SrcRecord → Tally → Crosswalk → Tally × Crosswalk
  | [], t, db => (t, db)
  | r :: rest, t, db =>
    if r.prodId = "" then
      -- "Skipping record with no ID": no counter, continue
      syncLoop kind limit rest t db
    else if cwExists db kind r.prodId then
      syncLoop kind limit rest { t with skipped := t.skipped + 1 } db
    else
      match r.outcome with
      | .raised =>
        syncLoop kind limit rest { t with errors := t.errors + 1 } db
      | .poNoItems =>
        syncLoop kind limit rest { t with skipped := t.skipped + 1 } db
      | .poMissingPrereq =>
        syncLoop kind limit rest { t with errors := t.errors + 1 } db
      | .dryRunPrinted =>
        let t2 := { t with processed := t.processed + 1 }
        if limit ≠ 0 ∧ limit ≤ t2.processed then (t2, db)
        else syncLoop kind limit rest t2 db
      | .createdNoId =>
        let t2 := { t with errors := t.errors + 1, processed := t.processed + 1 }
        if limit ≠ 0 ∧ limit ≤ t2.processed then (t2, db)
        else syncLoop kind limit rest t2 db
      | .createdOk intId =>
        let t2 := { t with created := t.created + 1, processed := t.processed + 1 }
        let db2 := cwPut db kind r.prodId intId
        if limit ≠ 0 ∧ limit ≤ t2.processed then (t2, db2)
        else syncLoop kind limit rest t2 db2

/-! ## Auxiliary definitions used by the statements and their instances -/

/-- A value that is a string whenever it is truthy: exactly the source
records on which the pydantic str fields of ItemCreate cannot reject the
fallback-chain results. -/
def strIfTruthy (v : JVal) : Bool :=
  !v.truthy || (match v with | .str _ => true | _ => false)

/-- A POST server answering the first physical POST with a wrapper-hinting
5xx and any later POST with success. -/
def wrapHintServer : Nat → HResp := fun k =>
  match k with
  | 0 => ⟨503, "The Request body is invalid", .null⟩
  | _ => ⟨200, "", .obj [("id", .num 9)]⟩

/-- A POST server answering every physical POST with a plain 5xx. -/
def plain5xxServer : Nat → HResp := fun _ => ⟨503, "internal error", .null⟩

/-- A paginating server keyed on the page parameter: two items then one
item then a final page, with hasMore true, true, false. -/
def threePageServer : Params → JVal := fun p =>
  match pGet p "page" with
  | some (.num 2) => .obj [("data", .arr [.str "c"]), ("hasMore", .bool true)]
  | some (.num 3) => .obj [("data", .arr [.str "d"]), ("hasMore", .bool false)]
  | _ => .obj [("data", .arr [.str "a", .str "b"]), ("hasMore", .bool true)]

/-- A paginating server whose first page already reports hasMore false. -/
def onePageServer : Params → JVal := fun _ =>
  .obj [("data", .arr [.str "a", .str "b"]), ("hasMore", .bool false)]

/-- A list config with page tracking and the data key used by the scans. -/
def pageCfg : FetchCfg :=
  ⟨[("page", .num 1)], none, .str "data", .str "hasMore"⟩

/-- A source record whose prod id is already mapped in `preMappedDb`. -/
def skipRec : SrcRecord := ⟨"s", .raised⟩

/-- A source record whose try block raises. -/
def errRec : SrcRecord := ⟨"e", .raised⟩

/-- A source record that completes its per-record body (dry-run print). -/
def okRec : SrcRecord := ⟨"p", .dryRunPrinted⟩

/-- A crosswalk in which record "s" of kind "items" is already mapped. -/
def preMappedDb : Crosswalk := cwPut cwEmpty "items" "s" "77"

/-! # Theorems -/

/-- Helper: when every attempt raises a retryable exception, the tenacity
loop consumes its whole budget and then raises. -/
theorem retryLoop_all_retryable (step : Nat → AttemptStep)
    (h : ∀ i, step i = .retryableError) :
    ∀ n m, retryLoop step (n + 1) m = (.error, m + (n + 1)) := by
  intro n
  induction n with
  | zero => intro m; simp [retryLoop, h m]
  | succ k ih =>
    intro m
    have hk := ih (m + 1)
    rw [retryLoop, h m]
    show (if k + 1 = 0 then (CallResult.error, m + 1)
      else retryLoop step (k + 1) (m + 1)) = (CallResult.error, m + (k + 1 + 1))
    rw [if_neg (Nat.succ_ne_zero k), hk]
    simp only [Prod.mk.injEq, true_and]
    omega

/-- C5: a GET whose every attempt yields HTTP 429 performs exactly 4
attempts in total and then the call raises; no fifth attempt is made. -/
theorem get_429_exactly_four_attempts (resp : Nat → HResp)
    (h : ∀ i, (resp i).status = 429) :
    http_get resp = (.error, 4) := by
  have hs : ∀ i, getAttempt (resp i) = .retryableError := by
    intro i
    simp [getAttempt, h i]
  simpa using retryLoop_all_retryable _ hs 3 0

/-- Witness for C5 at a concrete always-429 server. -/
theorem get_429_exactly_four_attempts_witness :
    http_get (fun _ => ⟨429, "Rate limited", .null⟩) = (.error, 4) :=
  get_429_exactly_four_attempts _ (fun _ => rfl)

/-- C1: evidence of the code bug.  A GET whose every response is HTTP 404
is NOT surfaced after the first response: the re-raised
httpx.HTTPStatusError falls in the tenacity retry set, so the modelled
`http_get` performs all 4 attempts before raising. -/
theorem get_404_retried_four_attempts :
    http_get (fun _ => ⟨404, "Not Found", .null⟩) = (.error, 4) := rfl

/-- C4 (amended, for the src/stsync_http.py transport): a POST answered
with a 5xx whose body contains "request" (case-insensitively) makes exactly
one additional attempt, with the payload re-wrapped as {"request": payload},
and that wrapper attempt is never retried or chained (the trace is exactly
those two POSTs whatever the wrapper attempt returns); a 5xx without the
substring produces zero wrapper attempts and the call raises. -/
theorem post_5xx_wrapper_retry (payload : JVal) (server : Nat → HResp)
    (h5 : 500 ≤ (server 0).status) :
    (strContainsCI (server 0).body "request" = true →
      (http_post_json payload true server).2 =
        [payload, .obj [("request", payload)]]) ∧
    (strContainsCI (server 0).body "request" = false →
      http_post_json payload true server = (.error, [payload])) := by
  have h429 : ¬ (server 0).status = 429 := by omega
  constructor
  · intro hreq
    by_cases h2 : (server 1).status < 400 <;>
      simp [http_post_json, postRetryLoop, postAttemptHttpMod, h429, h5, hreq, h2]
  · intro hreq
    simp [http_post_json, postRetryLoop, postAttemptHttpMod, h429, h5, hreq]

/-- Witness for C4 at two concrete servers: one whose 5xx body hints at the
wrapper, one whose 5xx body does not. -/
theorem post_5xx_wrapper_retry_witness :
    (http_post_json (.num 7) true wrapHintServer).2 =
      [.num 7, .obj [("request", .num 7)]] ∧
    http_post_json (.num 7) true plain5xxServer = (.error, [.num 7]) :=
  ⟨(post_5xx_wrapper_retry (.num 7) wrapHintServer (by decide)).1 (by rfl),
   (post_5xx_wrapper_retry (.num 7) plain5xxServer (by decide)).2 (by rfl)⟩

/-- C4 counterexample: on the src/stsync.py transport (also cited by the
claim), a POST answered with 5xx and a body containing "request" performs
ZERO wrapper attempts — the 5xx raises into the tenacity retry set instead,
so four plain copies of the original payload are POSTed and no
{"request": ...} wrapper ever appears. -/
theorem post_5xx_wrapper_retry_legacy_counterexample :
    http_post_json_legacy (.num 7) true
      (fun _ => ⟨503, "A request wrapper is required", .null⟩) =
      (.error, [.num 7, .num 7, .num 7, .num 7]) := rfl

/-- Helper: reading one put. -/
theorem cwGet_cwPut (db : Crosswalk) (k0 p0 i0 k p : String) :
    cwGet (cwPut db k0 p0 i0) k p =
      if k0 = k ∧ p0 = p then some i0 else cwGet db k p := by
  by_cases h : k0 = k ∧ p0 = p <;>
    simp [cwGet, cwPut, List.find?, Prod.mk.injEq, h]

/-- Helper: a run of puts read back through get, over any starting state. -/
theorem cwRun_get (ops : List (String × String × String)) (db : Crosswalk)
    (kind pid : String) :
    cwGet (cwRun ops db) kind pid =
      match lastWriteSpec ops kind pid with
      | some v => some v
      | none => cwGet db kind pid := by
  induction ops generalizing db with
  | nil => simp [cwRun, lastWriteSpec]
  | cons op rest ih =>
    have hstep : cwRun (op :: rest) db = cwRun rest (cwPut db op.1 op.2.1 op.2.2) := rfl
    rw [hstep, ih (cwPut db op.1 op.2.1 op.2.2), cwGet_cwPut]
    cases hr : lastWriteSpec rest kind pid with
    | some v => simp [lastWriteSpec, hr]
    | none =>
      by_cases h : op.1 = kind ∧ op.2.1 = pid <;>
        simp [lastWriteSpec, hr, h]

/-- C6: after any sequence of put calls on an empty store, get returns
exactly the destination id of the last put for that (kind, source_id) pair
(absent when there is none), and exists returns true iff get returns a
value. -/
theorem crosswalk_get_last_put (ops : List (String × String × String))
    (kind pid : String) :
    cwGet (cwRun ops cwEmpty) kind pid = lastWriteSpec ops kind pid ∧
    cwExists (cwRun ops cwEmpty) kind pid =
      (cwGet (cwRun ops cwEmpty) kind pid).isSome := by
  refine ⟨?_, rfl⟩
  rw [cwRun_get ops cwEmpty kind pid]
  cases lastWriteSpec ops kind pid <;> simp [cwGet, cwEmpty]

/-- Helper: `data.get(list_key) or []` yields the page items verbatim when
the list key holds an array. -/
theorem jItems_pyOr_arr (xs : List JVal) :
    jItems (pyOr (.arr xs) (.arr [])) = xs := by
  cases xs <;> simp [jItems, pyOr, JVal.truthy, List.isEmpty]

/-- C7: pagination termination.  With hasMore false on page 1, `fetch_all`
yields exactly the items of page 1 and issues no further page requests;
with hasMore true on pages 1 and 2 and false on page 3, it yields the items
of pages 1 through 3 in order and the request trace is exactly those three
pages — page 4 is never requested. -/
theorem pagination_termination (cfg : FetchCfg) (server : Params → JVal)
    (since : Option String) (psd : Int) :
    (∀ (fuel : Nat) (xs1 : List JVal) (p1 : Params),
      p1 = fetchInitParams cfg since psd →
      (server p1).hasKey "hasMore" = true →
      ((server p1).get "hasMore").truthy = false →
      (server p1).get (fetchListKey cfg) = .arr xs1 →
      fetch_all cfg server since psd (fuel + 1) = (xs1, [p1])) ∧
    (∀ (fuel : Nat) (xs1 xs2 xs3 : List JVal) (p1 p2 p3 : Params),
      p1 = fetchInitParams cfg since psd →
      p2 = pSet p1 "page" (.num (jintD ((pGet p1 "page").getD (.num 1)) + 1)) →
      p3 = pSet p2 "page" (.num (jintD ((pGet p2 "page").getD (.num 1)) + 1)) →
      (server p1).hasKey "hasMore" = true →
      ((server p1).get "hasMore").truthy = true →
      (server p1).get (fetchListKey cfg) = .arr xs1 →
      (server p2).hasKey "hasMore" = true →
      ((server p2).get "hasMore").truthy = true →
      (server p2).get (fetchListKey cfg) = .arr xs2 →
      (server p3).hasKey "hasMore" = true →
      ((server p3).get "hasMore").truthy = false →
      (server p3).get (fetchListKey cfg) = .arr xs3 →
      fetch_all cfg server since psd (fuel + 3) =
        (xs1 ++ xs2 ++ xs3, [p1, p2, p3])) := by
  constructor
  · intro fuel xs1 p1 hp1 hk ht hi
    subst hp1
    unfold fetch_all
    simp [fetchLoop, hk, ht, hi, jItems_pyOr_arr]
  · intro fuel xs1 xs2 xs3 p1 p2 p3 hp1 hp2 hp3 hk1 ht1 hi1 hk2 ht2 hi2 hk3 ht3 hi3
    subst hp1; subst hp2; subst hp3
    unfold fetch_all
    have h3 : fuel + 3 = (fuel + 2) + 1 := rfl
    rw [h3]
    simp [fetchLoop, hk1, ht1, hi1, hk2, ht2, hi2, hk3, ht3, hi3, jItems_pyOr_arr]

/-- Witness for C7 at a one-page server and a three-page server. -/
theorem pagination_termination_witness :
    fetch_all pageCfg onePageServer none 200 1 =
      ([.str "a", .str "b"], [[("page", .num 1)]]) ∧
    fetch_all pageCfg threePageServer none 200 3 =
      ([.str "a", .str "b", .str "c", .str "d"],
        [[("page", .num 1)], [("page", .num 2)], [("page", .num 3)]]) := by
  constructor
  · exact (pagination_termination pageCfg onePageServer none 200).1 0
      [.str "a", .str "b"] [("page", .num 1)] rfl rfl rfl rfl
  · exact (pagination_termination pageCfg threePageServer none 200).2 0
      [.str "a", .str "b"] [.str "c"] [.str "d"]
      [("page", .num 1)] [("page", .num 2)] [("page", .num 3)]
      rfl rfl rfl rfl rfl rfl rfl rfl rfl rfl rfl rfl

/-- Helper: a fallback chain `a or <string literal>` produces a string when
`a` is a string whenever truthy. -/
theorem pyOr_str_of_strIfTruthy (a : JVal) (s : String)
    (h : strIfTruthy a = true) : ∃ t, pyOr a (.str s) = .str t := by
  cases a with
  | str t =>
    by_cases ht : t = ""
    · subst ht; exact ⟨s, by simp [pyOr, JVal.truthy]⟩
    · exact ⟨t, by simp [pyOr, JVal.truthy, ht]⟩
  | null => exact ⟨s, by simp [pyOr, JVal.truthy]⟩
  | bool b =>
    have hb : b = false := by simpa [strIfTruthy, JVal.truthy] using h
    subst hb; exact ⟨s, by simp [pyOr, JVal.truthy]⟩
  | num n =>
    have hn : n = 0 := by simpa [strIfTruthy, JVal.truthy] using h
    subst hn; exact ⟨s, by simp [pyOr, JVal.truthy]⟩
  | arr xs =>
    have hx : xs = [] := by simpa [strIfTruthy, JVal.truthy] using h
    subst hx; exact ⟨s, by simp [pyOr, JVal.truthy]⟩
  | obj fs =>
    have hx : fs = [] := by simpa [strIfTruthy, JVal.truthy] using h
    subst hx; exact ⟨s, by simp [pyOr, JVal.truthy]⟩

/-- C10 (amended): on every dictionary source record whose code, itemCode,
name and description values are strings whenever truthy, the item mapper
returns a create payload and the ValidationError branch is not taken.  (The
branch IS reachable for truthy non-string field values, see the
counterexample.) -/
theorem map_item_total_on_stringly (src : JVal)
    (hc : strIfTruthy (src.get "code") = true)
    (hic : strIfTruthy (src.get "itemCode") = true)
    (hn : strIfTruthy (src.get "name") = true)
    (hd : strIfTruthy (src.get "description") = true) :
    ∃ v, map_item_for_create src = .ok v := by
  obtain ⟨t1, e1⟩ := pyOr_str_of_strIfTruthy (src.get "itemCode")
    ("PROD-" ++ pyStr (src.get "id")) hic
  obtain ⟨t2, e2⟩ := pyOr_str_of_strIfTruthy (src.get "description")
    "Unknown Item" hd
  obtain ⟨t3, e3⟩ := pyOr_str_of_strIfTruthy (src.get "name") "Unknown Item" hn
  obtain ⟨c, ec⟩ : ∃ c,
      pyOr (src.get "code") (pyOr (src.get "itemCode")
        (.str ("PROD-" ++ pyStr (src.get "id")))) = .str c := by
    rw [e1]; exact pyOr_str_of_strIfTruthy _ t1 hc
  obtain ⟨n1, en⟩ : ∃ n1,
      pyOr (src.get "name") (pyOr (src.get "description")
        (.str "Unknown Item")) = .str n1 := by
    rw [e2]; exact pyOr_str_of_strIfTruthy _ t2 hn
  obtain ⟨d1, ed⟩ : ∃ d1,
      pyOr (src.get "description") (pyOr (src.get "name")
        (.str "Unknown Item")) = .str d1 := by
    rw [e3]; exact pyOr_str_of_strIfTruthy _ t3 hd
  refine ⟨ItemCreate.dump
    ⟨c, n1, some d1, (src.getD "active" (.bool true)).truthy⟩, ?_⟩
  unfold map_item_for_create
  rw [ec, en, ed]
  rfl

/-- Witness for C10 (amended) at a concrete well-formed source record. -/
theorem map_item_total_on_stringly_witness :
    ∃ v, map_item_for_create
      (.obj [("id", .num 42), ("code", .str "A1"), ("name", .str "Widget"),
        ("active", .bool true)]) = .ok v :=
  map_item_total_on_stringly _ rfl rfl rfl rfl

/-- C10 counterexample: a dictionary source record whose truthy code value
is not a string raises a ValidationError — pydantic v2 does not coerce int
to str — so the mapper does raise on some dictionary inputs and the
ValidationError branch is reachable. -/
theorem map_item_validation_error_counterexample :
    map_item_for_create
      (.obj [("id", .num 7), ("code", .num 123), ("name", .str "Widget")]) =
      .error "Input should be a valid string" := rfl

/-- Helper: `payload.get("code") or ""` is the code itself for a
model_dump payload, whose code field is always a string. -/
theorem pyOr_str_empty (s : String) : pyOr (.str s) (.str "") = .str s := by
  by_cases h : s = "" <;> simp [pyOr, JVal.truthy, h]

/-- C8: natural-key dedup.  For each of the three resolvers: when the
crosswalk has no entry and the destination scan finds a record whose
natural key matches (name for vendor/warehouse, code for material), the
resolver returns the id of that record, caches it into the crosswalk, and
performs no create POST — in any run mode. -/
theorem natural_key_dedup :
    (∀ (vendorId : Int) (db : Crosswalk) (dryRun : Bool) (prodV : JVal)
        (destV : List JVal) (cr : Except String JVal) (s : String) (i : Int),
      optTruthy (cwGet db "vendors" (toString vendorId)) = false →
      vendorNameOf prodV vendorId = .str s →
      find_integration_vendor_by_name destV s = .num i →
      i ≠ 0 →
      ensure_vendor_integration vendorId db dryRun prodV destV cr =
        ⟨.ok (some i), cwPut db "vendors" (toString vendorId) (toString i), []⟩) ∧
    (∀ (itemId : Int) (db : Crosswalk) (dryRun : Bool) (fc fn m : JVal)
        (pe : Except String JVal) (destM : List JVal)
        (cr acr : Except String JVal) (item : ItemCreate) (i : Int),
      optTruthy (cwGet db "items" (toString itemId)) = false →
      materialItemFrom m itemId "Material" = .ok item →
      find_integration_material_by_code destM item.code = .num i →
      i ≠ 0 →
      ensure_material_integration itemId db dryRun fc fn (.ok m) pe destM cr acr =
        ⟨.ok (some i), cwPut db "items" (toString itemId) (toString i), []⟩) ∧
    (∀ (warehouseId : Int) (db : Crosswalk) (dryRun : Bool) (prodW : JVal)
        (destW : List JVal) (cr : Except String JVal) (s : String) (i : Int),
      optTruthy (cwGet db "warehouses" (toString warehouseId)) = false →
      warehouseNameOf prodW warehouseId = .str s →
      find_integration_warehouse_by_name destW s = .num i →
      i ≠ 0 →
      ensure_warehouse_integration warehouseId db dryRun prodW destW cr =
        ⟨.ok (some i), cwPut db "warehouses" (toString warehouseId) (toString i), []⟩) := by
  refine ⟨?_, ?_, ?_⟩
  · intro vendorId db dryRun prodV destV cr s i hmiss hname hfind hi
    unfold ensure_vendor_integration
    simp [hmiss, hname, hfind, JVal.truthy, jint, pyStr, hi]
  · intro itemId db dryRun fc fn m pe destM cr acr item i hmiss hitem hfind hi
    unfold ensure_material_integration
    simp [hmiss, hitem, ItemCreate.dump, JVal.get, List.find?, pyOr_str_empty,
      pyStr, hfind, JVal.truthy, jint, hi]
  · intro warehouseId db dryRun prodW destW cr s i hmiss hname hfind hi
    unfold ensure_warehouse_integration
    simp [hmiss, hname, hfind, JVal.truthy, jint, pyStr, hi]

/-- Witness for C8: each resolver, at a concrete destination list holding a
case-insensitive natural-key match. -/
theorem natural_key_dedup_witness :
    ensure_vendor_integration 5 cwEmpty false (.obj [("name", .str "Acme")])
      [.obj [("name", .str "ACME"), ("id", .num 31)]] (.error "unused") =
      ⟨.ok (some 31), cwPut cwEmpty "vendors" "5" "31", []⟩ ∧
    ensure_material_integration 7 cwEmpty false .null .null
      (.ok (.obj [("code", .str "A1"), ("name", .str "Widget")]))
      (.error "unused") [.obj [("code", .str "a1"), ("id", .num 42)]]
      (.error "unused") (.error "unused") =
      ⟨.ok (some 42), cwPut cwEmpty "items" "7" "42", []⟩ ∧
    ensure_warehouse_integration 9 cwEmpty false (.obj [("name", .str "Main")])
      [.obj [("name", .str "MAIN"), ("id", .num 77)]] (.error "unused") =
      ⟨.ok (some 77), cwPut cwEmpty "warehouses" "9" "77", []⟩ := by
  refine ⟨?_, ?_, ?_⟩
  · exact natural_key_dedup.1 5 cwEmpty false _ _ _ "Acme" 31 rfl rfl rfl
      (by decide)
  · exact natural_key_dedup.2.1 7 cwEmpty false .null .null _ _ _ _ _
      ⟨"A1", "Widget", some "Widget", true⟩ 42 rfl rfl rfl (by decide)
  · exact natural_key_dedup.2.2 9 cwEmpty false _ _ _ "Main" 77 rfl rfl rfl
      (by decide)

/-- Helper: the model_dump payload carries the code field verbatim. -/
theorem dump_get_code (it : ItemCreate) :
    JVal.get it.dump "code" = .str it.code := rfl

/-- Helper: `s or fallback` keeps a non-empty string. -/
theorem pyOr_str_ne (s : String) (h : s ≠ "") (b : JVal) :
    pyOr (.str s) b = .str s := by
  simp [pyOr, JVal.truthy, h]

/-- C9: a material create failing with an error whose message contains
"unique" (case-insensitively) triggers exactly one additional create
attempt, whose payload carries the disambiguated code
"code - PROD-id" and whose allow_wrapper_retry flag is false — and the
trace has exactly these two creates whatever the retry attempt returns, so
no second disambiguation retry ever occurs. -/
theorem material_unique_retry (itemId : Int) (db : Crosswalk)
    (fc fn m : JVal) (pe : Except String JVal) (destM : List JVal)
    (item : ItemCreate) (e : String) (acr : Except String JVal)
    (hmiss : optTruthy (cwGet db "items" (toString itemId)) = false)
    (hitem : materialItemFrom m itemId "Material" = .ok item)
    (hcode : item.code ≠ "")
    (hfind : (find_integration_material_by_code destM item.code).truthy = false)
    (he : strContainsCI e "unique" = true) :
    (ensure_material_integration itemId db false fc fn (.ok m) pe destM
        (.error e) acr).creates =
      [(item.dump, true),
        (objSet item.dump "code"
          (.str (item.code ++ " - PROD-" ++ toString itemId)), false)] := by
  simp only [ensure_material_integration]
  simp [hmiss, hitem, dump_get_code, pyOr_str_empty, pyStr, hfind, he,
    pyOr_str_ne item.code hcode]
  repeat' split
  all_goals simp_all

/-- Witness for C9 at a concrete unique-violation create failure. -/
theorem material_unique_retry_witness :
    (ensure_material_integration 7 cwEmpty false .null .null
        (.ok (.obj [("code", .str "A1"), ("name", .str "Widget")]))
        (.error "nope") [] (.error "Code must be UNIQUE") (.ok (.obj []))).creates =
      [(ItemCreate.dump ⟨"A1", "Widget", some "Widget", true⟩, true),
        (objSet (ItemCreate.dump ⟨"A1", "Widget", some "Widget", true⟩) "code"
          (.str ("A1" ++ " - PROD-" ++ toString (7 : Int))), false)] :=
  material_unique_retry 7 cwEmpty .null .null _ (.error "nope") []
    ⟨"A1", "Widget", some "Widget", true⟩ "Code must be UNIQUE" (.ok (.obj []))
    rfl rfl (by decide) rfl rfl

/-- C3 counterexample: in dry-run mode, a vendor resolution that reaches
the natural-key match step DOES update the crosswalk — the put at that step
is not guarded by the dry-run flag, contradicting the claim that no put
occurs in dry-run regardless of the resolution step reached. -/
theorem dry_run_crosswalk_put_counterexample :
    ensure_vendor_integration 5 cwEmpty true (.obj [("name", .str "Acme")])
      [.obj [("name", .str "Acme"), ("id", .num 31)]] (.error "unused") =
      ⟨.ok (some 31), cwPut cwEmpty "vendors" "5" "31", []⟩ := rfl

/-- C3 (amended): in dry-run mode no resolver ever issues a create POST,
and the create step never writes the crosswalk — when the natural-key scan
finds nothing, the crosswalk is left untouched; only a natural-key match
writes (it caches the discovered id even in dry-run). -/
theorem dry_run_no_creates :
    (∀ (vendorId : Int) (db : Crosswalk) (prodV : JVal) (destV : List JVal)
        (cr : Except String JVal),
      (ensure_vendor_integration vendorId db true prodV destV cr).creates = [] ∧
      ((∀ s, find_integration_vendor_by_name destV s = .null) →
        (ensure_vendor_integration vendorId db true prodV destV cr).db = db)) ∧
    (∀ (itemId : Int) (db : Crosswalk) (fc fn : JVal)
        (pm pe : Except String JVal) (destM : List JVal)
        (cr acr : Except String JVal),
      (ensure_material_integration itemId db true fc fn pm pe destM cr acr).creates
        = [] ∧
      ((∀ s, find_integration_material_by_code destM s = .null) →
        (ensure_material_integration itemId db true fc fn pm pe destM cr acr).db
          = db)) ∧
    (∀ (warehouseId : Int) (db : Crosswalk) (prodW : JVal) (destW : List JVal)
        (cr : Except String JVal),
      (ensure_warehouse_integration warehouseId db true prodW destW cr).creates
        = [] ∧
      ((∀ s, find_integration_warehouse_by_name destW s = .null) →
        (ensure_warehouse_integration warehouseId db true prodW destW cr).db
          = db)) := by
  refine ⟨?_, ?_, ?_⟩
  · intro vendorId db prodV destV cr
    constructor
    · simp only [ensure_vendor_integration]
      repeat' split
      all_goals simp_all
    · intro hfind
      have hf : ∀ vName : JVal, (match vName with
          | JVal.str s => find_integration_vendor_by_name destV s
          | _ => JVal.null) = JVal.null := by
        intro vName; cases vName <;> simp [hfind]
      simp only [ensure_vendor_integration]
      simp [hf, JVal.truthy]
      repeat' split
      all_goals simp_all
  · intro itemId db fc fn pm pe destM cr acr
    constructor
    · simp only [ensure_material_integration]
      repeat' split
      all_goals simp_all
    · intro hfind
      simp only [ensure_material_integration]
      simp [hfind, JVal.truthy]
      repeat' split
      all_goals simp_all
  · intro warehouseId db prodW destW cr
    constructor
    · simp only [ensure_warehouse_integration]
      repeat' split
      all_goals simp_all
    · intro hfind
      have hf : ∀ wName : JVal, (match wName with
          | JVal.str s => find_integration_warehouse_by_name destW s
          | _ => JVal.null) = JVal.null := by
        intro wName; cases wName <;> simp [hfind]
      simp only [ensure_warehouse_integration]
      simp [hf, JVal.truthy]
      repeat' split
      all_goals simp_all

/-- Witness for C3 (amended): each dry-run resolver at a concrete input
with an empty destination list leaves the crosswalk alone and creates
nothing. -/
theorem dry_run_no_creates_witness :
    ((ensure_vendor_integration 5 cwEmpty true (.obj [("name", .str "Acme")])
        [] (.error "unused")).creates = [] ∧
      (ensure_vendor_integration 5 cwEmpty true (.obj [("name", .str "Acme")])
        [] (.error "unused")).db = cwEmpty) ∧
    ((ensure_material_integration 7 cwEmpty true .null .null
        (.ok (.obj [("code", .str "A1"), ("name", .str "W")])) (.error "x")
        [] (.error "unused") (.error "unused")).creates = [] ∧
      (ensure_material_integration 7 cwEmpty true .null .null
        (.ok (.obj [("code", .str "A1"), ("name", .str "W")])) (.error "x")
        [] (.error "unused") (.error "unused")).db = cwEmpty) ∧
    ((ensure_warehouse_integration 9 cwEmpty true (.obj [("name", .str "Main")])
        [] (.error "unused")).creates = [] ∧
      (ensure_warehouse_integration 9 cwEmpty true (.obj [("name", .str "Main")])
        [] (.error "unused")).db = cwEmpty) := by
  refine ⟨⟨?_, ?_⟩, ⟨?_, ?_⟩, ⟨?_, ?_⟩⟩
  · exact (dry_run_no_creates.1 5 cwEmpty _ [] _).1
  · refine (dry_run_no_creates.1 5 cwEmpty _ [] _).2 (fun s => ?_)
    by_cases h : strToLower (strStrip s) = "" <;>
      simp [find_integration_vendor_by_name, h, List.find?]
  · exact (dry_run_no_creates.2.1 7 cwEmpty .null .null _ _ [] _ _).1
  · refine (dry_run_no_creates.2.1 7 cwEmpty .null .null _ _ [] _ _).2
      (fun s => ?_)
    by_cases h : strToLower (strStrip s) = "" <;>
      simp [find_integration_material_by_code, h, List.find?]
  · exact (dry_run_no_creates.2.2 9 cwEmpty _ [] _).1
  · refine (dry_run_no_creates.2.2 9 cwEmpty _ [] _).2 (fun s => ?_)
    by_cases h : strToLower (strStrip s) = "" <;>
      simp [find_integration_warehouse_by_name, h, List.find?]

/-- Helper: one already-mapped record is skipped; the loop continues with
skipped incremented and processed untouched. -/
theorem syncLoop_skip_step (L : Nat) (t : Tally) (l : List SrcRecord) :
    syncLoop "items" L (skipRec :: l) t preMappedDb =
      syncLoop "items" L l { t with skipped := t.skipped + 1 } preMappedDb := by
  simp [syncLoop, skipRec, preMappedDb, cwExists, cwGet, cwPut, List.find?]

/-- Helper: one raising record is tallied as an error; the loop continues
with processed untouched. -/
theorem syncLoop_err_step (L : Nat) (t : Tally) (l : List SrcRecord) :
    syncLoop "items" L (errRec :: l) t preMappedDb =
      syncLoop "items" L l { t with errors := t.errors + 1 } preMappedDb := by
  simp [syncLoop, errRec, preMappedDb, cwExists, cwGet, cwPut, List.find?]

/-- Helper: one completing record bumps processed, then the limit check
decides whether the stream stops. -/
theorem syncLoop_ok_step (L : Nat) (t : Tally) (l : List SrcRecord) :
    syncLoop "items" L (okRec :: l) t preMappedDb =
      (if L ≠ 0 ∧ L ≤ t.processed + 1 then
        ({ t with processed := t.processed + 1 }, preMappedDb)
      else
        syncLoop "items" L l { t with processed := t.processed + 1 }
          preMappedDb) := by
  simp [syncLoop, okRec, preMappedDb, cwExists, cwGet, cwPut, List.find?]

/-- Helper: a block of already-mapped records only accumulates skips. -/
theorem syncLoop_skip_run (L a : Nat) :
    ∀ (t : Tally) (rest : List SrcRecord),
      syncLoop "items" L (List.replicate a skipRec ++ rest) t preMappedDb =
        syncLoop "items" L rest { t with skipped := t.skipped + a }
          preMappedDb := by
  induction a with
  | zero => intro t rest; rfl
  | succ k ih =>
    intro t rest
    rw [List.replicate_succ, List.cons_append, syncLoop_skip_step, ih]
    have h : t.skipped + 1 + k = t.skipped + (k + 1) := by omega
    rw [h]

/-- Helper: a block of raising records only accumulates errors. -/
theorem syncLoop_err_run (L b : Nat) :
    ∀ (t : Tally) (rest : List SrcRecord),
      syncLoop "items" L (List.replicate b errRec ++ rest) t preMappedDb =
        syncLoop "items" L rest { t with errors := t.errors + b }
          preMappedDb := by
  induction b with
  | zero => intro t rest; rfl
  | succ k ih =>
    intro t rest
    rw [List.replicate_succ, List.cons_append, syncLoop_err_step, ih]
    have h : t.errors + 1 + k = t.errors + (k + 1) := by omega
    rw [h]

/-- Helper: a block of completing records that exactly exhausts the limit
stops the stream there; whatever follows is never examined. -/
theorem syncLoop_ok_run (L n : Nat) :
    ∀ (t : Tally) (rest : List SrcRecord), L ≠ 0 →
      t.processed + (n + 1) = L →
      syncLoop "items" L (List.replicate (n + 1) okRec ++ rest) t preMappedDb =
        ({ t with processed := L }, preMappedDb) := by
  induction n with
  | zero =>
    intro t rest hL hp
    rw [List.replicate_succ, List.replicate_zero, List.cons_append,
      List.nil_append, syncLoop_ok_step]
    rw [if_pos ⟨hL, by omega⟩]
    have h2 : t.processed + 1 = L := by omega
    rw [h2]
  | succ k ih =>
    intro t rest hL hp
    rw [List.replicate_succ, List.cons_append, syncLoop_ok_step]
    have hlt : ¬ (L ≠ 0 ∧ L ≤ t.processed + 1) := by
      intro hc; omega
    rw [if_neg hlt]
    exact ih { t with processed := t.processed + 1 } rest hL (by simp; omega)

/-- C2 (amended): with a configured limit N = n + 1 > 0, the stream stops
after N records that complete the per-record body; records skipped as
already mapped and records whose processing raises do not consume the
limit — after a skips and b errors, all N completing records are still
processed and only then does the stream stop, never examining the rest. -/
theorem sync_limit_counts_completed (a b n : Nat) (rest : List SrcRecord) :
    syncLoop "items" (n + 1)
      (List.replicate a skipRec ++ (List.replicate b errRec ++
        (List.replicate (n + 1) okRec ++ rest)))
      ⟨0, 0, 0, 0⟩ preMappedDb =
      (⟨n + 1, a, 0, b⟩, preMappedDb) := by
  rw [syncLoop_skip_run (n + 1) a ⟨0, 0, 0, 0⟩
    (List.replicate b errRec ++ (List.replicate (n + 1) okRec ++ rest))]
  simp only [Nat.zero_add]
  rw [syncLoop_err_run (n + 1) b ⟨0, a, 0, 0⟩
    (List.replicate (n + 1) okRec ++ rest)]
  simp only [Nat.zero_add]
  exact syncLoop_ok_run (n + 1) n ⟨0, a, 0, b⟩ rest (Nat.succ_ne_zero n)
    (by simp)

/-- C2 counterexample: with limit 1, a first record that is skipped as
already mapped does NOT stop the stream (it would if skips counted toward
the limit): the following record is still processed and created. -/
theorem sync_limit_skip_not_counted_counterexample :
    syncLoop "items" 1 [⟨"s", .raised⟩, ⟨"q", .createdOk "9"⟩]
      ⟨0, 0, 0, 0⟩ preMappedDb =
      (⟨1, 1, 1, 0⟩, cwPut preMappedDb "items" "q" "9") := rfl

end StSync
